import Mathlib

/-!
Shallow embedding of `samples/SubProcessDemo/simple_counter.py`, a script
that initializes `counter = 0`, then runs `while counter < 20:` printing
`f"Iteration {counter}"` with `flush=True`, incrementing `counter` by 1 and
calling `time.sleep(1)`, and after the loop prints `"Counter finished."`
(without a `flush` argument) and falls off the end of the module, so the
interpreter exits with status 0.

The script is embedded as a small-step machine: a state holds the program
point, the `counter` variable and the list of observable events emitted so
far.  A print event records the structured payload of the printed line and
whether `flush=True` was passed at that call site; a sleep event records the
number of seconds requested from `time.sleep`.
-/

namespace SimpleCounter

/-- Lines the script can print: the body of the f-string
`f"Iteration {counter}"` with the interpolated counter value, and the fixed
final message. -/
inductive Line where
  | iteration (n : Nat)
  | finished
deriving DecidableEq

/-- Text actually written to stdout for each structured line, following the
two `print` call sites of the script. -/
def renderLine : Line → String
  | Line.iteration n => "Iteration " ++ toString n
  | Line.finished => "Counter finished."

/-- Observable actions of the script: a `print` call (payload and whether
`flush=True` was passed) and a `time.sleep` call with the requested number
of seconds. -/
inductive Event where
  | print (line : Line) (flush : Bool)
  | sleep (seconds : Nat)
deriving DecidableEq

/-- Program points of the script: `loop` is the `while counter < 20` guard,
`final` is the trailing `print("Counter finished.")` statement, and
`exited code` is the interpreter having exited with the given status. -/
inductive PC where
  | loop
  | final
  | exited (code : Nat)
deriving DecidableEq

/-- Machine state: current program point, the `counter` variable, and the
events emitted so far in order. -/
structure State where
  pc : PC
  counter : Nat
  out : List Event
deriving DecidableEq

/-- Initial state: `counter = 0` at the top of the `while` loop, nothing
emitted yet. -/
def init : State := { pc := PC.loop, counter := 0, out := [] }

/-- One step of the script.  At the loop head, if `counter < 20` the body
runs: it prints `f"Iteration {counter}"` with `flush=True`, increments
`counter` by 1 and sleeps 1 second; otherwise control falls to the final
print.  The final print emits `"Counter finished."` without a flush
argument and the interpreter then exits with status 0.  Exited states have
no successor. -/
def step : State → Option State
  | { pc := PC.loop, counter := c, out := o } =>
    if c < 20 then
      some { pc := PC.loop, counter := c + 1,
             out := o ++ [Event.print (Line.iteration c) true, Event.sleep 1] }
    else
      some { pc := PC.final, counter := c, out := o }
  | { pc := PC.final, counter := c, out := o } =>
    some { pc := PC.exited 0, counter := c,
           out := o ++ [Event.print Line.finished false] }
  | { pc := PC.exited _, counter := _, out := _ } => none

/-- Successor function: take a step if one exists, otherwise stay put. -/
def next (s : State) : State := (step s).getD s

/-- Iterate `next` a given number of times. -/
def stepN : Nat → State → State
  | 0, s => s
  | n + 1, s => stepN n (next s)

/-- State after running the whole script: 20 loop iterations, one
guard-failure step, one final-print step. -/
def finalState : State := stepN 22 init

/-- Payload of a print event, if any. -/
def lineOf : Event → Option Line
  | Event.print l _ => some l
  | Event.sleep _ => none

/-- Lines printed in an event trace, in order. -/
def outputLines (t : List Event) : List Line := t.filterMap lineOf

/-- Whether an event is a flushed write (sleeps are vacuously true, so this
tests that every print in a trace passed `flush=True`). -/
def flushedOf : Event → Bool
  | Event.print _ f => f
  | Event.sleep _ => true

/-- Whether an event is a `time.sleep` call. -/
def isSleep : Event → Bool
  | Event.sleep _ => true
  | Event.print _ _ => false

/-- Seconds requested by an event (0 for prints). -/
def sleepSeconds : Event → Nat
  | Event.sleep s => s
  | Event.print _ _ => 0

/-- Exit status recorded in a state, if the process has exited. -/
def exitCodeOf : State → Option Nat
  | { pc := PC.exited c, counter := _, out := _ } => some c
  | _ => none

/-- The script as a function of the inputs a process can receive: argument
vector, environment variables and stdin lines.  The source reads none of
them (no `sys.argv`, no `os.environ`, no `input()`/`sys.stdin`), so the run
ignores all three and yields the trace of the machine together with exit
status 0. -/
def runWith (_argv : List String) (_environ : List (String × String))
    (_stdinLines : List String) : List Event × Nat :=
  (finalState.out, 0)

/-! Helper lemmas about the machine. -/

theorem step_loop (s : State) (h1 : s.pc = PC.loop) (h2 : s.counter < 20) :
    step s = some { pc := PC.loop, counter := s.counter + 1,
                    out := s.out ++ [Event.print (Line.iteration s.counter) true,
                                     Event.sleep 1] } := by
  obtain ⟨pc, c, o⟩ := s
  cases pc with
  | loop => simp [step, h2]
  | final => simp at h1
  | exited code => simp at h1

theorem next_finalState : next finalState = finalState := by decide

theorem stepN_fix (s : State) (h : next s = s) : ∀ n, stepN n s = s := by
  intro n
  induction n with
  | zero => rfl
  | succ n ih =>
    have e : stepN (n + 1) s = stepN n (next s) := rfl
    rw [e, h]
    exact ih

theorem stepN_add (a b : Nat) (s : State) :
    stepN (a + b) s = stepN b (stepN a s) := by
  induction a generalizing s with
  | zero =>
    rw [Nat.zero_add]
    rfl
  | succ a ih =>
    have e1 : a + 1 + b = (a + b) + 1 := by omega
    rw [e1]
    have e2 : stepN ((a + b) + 1) s = stepN (a + b) (next s) := rfl
    rw [e2, ih (next s)]
    rfl

theorem stepN_succ (k : Nat) (s : State) :
    stepN (k + 1) s = next (stepN k s) := by
  rw [stepN_add k 1 s]
  rfl

theorem loopOut_eval (k : Nat) (hk : k ≤ 20) :
    (stepN k init).pc = PC.loop ∧ (stepN k init).counter = k ∧
    outputLines (stepN k init).out = (List.range k).map Line.iteration := by
  induction k with
  | zero => exact ⟨rfl, rfl, rfl⟩
  | succ k ih =>
    obtain ⟨hpc, hc, hout⟩ := ih (by omega)
    have hlt : (stepN k init).counter < 20 := by omega
    have hstep := step_loop (stepN k init) hpc hlt
    have hnext : next (stepN k init) =
        { pc := PC.loop, counter := (stepN k init).counter + 1,
          out := (stepN k init).out ++
            [Event.print (Line.iteration (stepN k init).counter) true,
             Event.sleep 1] } := by
      unfold next
      rw [hstep]
      rfl
    rw [stepN_succ, hnext]
    refine ⟨rfl, by simp [hc], ?_⟩
    show outputLines ((stepN k init).out ++
        [Event.print (Line.iteration (stepN k init).counter) true,
         Event.sleep 1]) = (List.range (k + 1)).map Line.iteration
    rw [hc]
    have hsplit : outputLines ((stepN k init).out ++
        [Event.print (Line.iteration k) true, Event.sleep 1]) =
        outputLines (stepN k init).out ++ [Line.iteration k] := by
      simp [outputLines, List.filterMap_append, lineOf]
    rw [hsplit, hout, List.range_succ]
    simp [List.map_append]

/-! Theorems for the claims. -/

/-- C1: a run allowed to complete uninterrupted emits exactly 20 lines
`Iteration N` with N taking each value 0..19 exactly once in strictly
increasing order, followed by exactly one `Counter finished.` line, and no
other output. -/
theorem C1_complete_output :
    outputLines finalState.out =
      (List.range 20).map Line.iteration ++ [Line.finished] ∧
    (outputLines finalState.out).map renderLine =
      ["Iteration 0", "Iteration 1", "Iteration 2", "Iteration 3",
       "Iteration 4", "Iteration 5", "Iteration 6", "Iteration 7",
       "Iteration 8", "Iteration 9", "Iteration 10", "Iteration 11",
       "Iteration 12", "Iteration 13", "Iteration 14", "Iteration 15",
       "Iteration 16", "Iteration 17", "Iteration 18", "Iteration 19",
       "Counter finished."] := by
  exact ⟨by decide, by decide⟩

/-- C2 as stated is false on the code: the final
`print("Counter finished.")` passes no `flush=True`, so the trace contains
a print event with flush flag false and not every emitted line is flushed
per line. -/
theorem C2_counterexample :
    Event.print Line.finished false ∈ finalState.out ∧
    finalState.out.all flushedOf = false := by decide

/-- C2 amended: every `Iteration N` line emitted during the loop is printed
with `flush=True`, but the final `Counter finished.` line is printed
without an explicit flush; it is the trailing event of the run. -/
theorem C2_loop_lines_flushed :
    (stepN 20 init).out.all flushedOf = true ∧
    finalState.out = (stepN 20 init).out ++ [Event.print Line.finished false] := by
  exact ⟨by decide, by decide⟩

/-- C3: one loop iteration, taken while counter < 20, emits the line
`Iteration {counter}` (flushed), increments counter by exactly 1, then
sleeps for the per-tick delay, and appends no other event. -/
theorem C3_iteration_body (s : State) (h1 : s.pc = PC.loop)
    (h2 : s.counter < 20) :
    step s = some { pc := PC.loop, counter := s.counter + 1,
                    out := s.out ++ [Event.print (Line.iteration s.counter) true,
                                     Event.sleep 1] } :=
  step_loop s h1 h2

/-- Witness for C3 at the initial state. -/
theorem C3_iteration_body_witness :
    init.pc = PC.loop ∧ init.counter < 20 ∧
    step init = some { pc := PC.loop, counter := 1,
                       out := [Event.print (Line.iteration 0) true,
                               Event.sleep 1] } :=
  ⟨rfl, by decide, C3_iteration_body init rfl (by decide)⟩

/-- C4: the loop terminates exactly when counter reaches 20 (after 20
iterations the machine is still at the loop head with counter = 20, the
next step leaves the loop without emitting anything), then the program
emits `Counter finished.` and exits with status code 0. -/
theorem C4_finish_and_exit :
    (stepN 20 init).pc = PC.loop ∧ (stepN 20 init).counter = 20 ∧
    (stepN 21 init).pc = PC.final ∧ (stepN 21 init).counter = 20 ∧
    (stepN 21 init).out = (stepN 20 init).out ∧
    finalState.out = (stepN 21 init).out ++ [Event.print Line.finished false] ∧
    exitCodeOf finalState = some 0 := by
  refine ⟨by decide, by decide, by decide, by decide, by decide, by decide,
    by decide⟩

/-- C5: if the run is cut off after k emitted lines (k < 20), the lines
emitted so far are exactly `Iteration 0` .. `Iteration (k-1)`: no
`Counter finished.` line has been emitted and no `Iteration N` line with
N ≥ k has been emitted. -/
theorem C5_truncated_run (k : Nat) (hk : k < 20) :
    outputLines (stepN k init).out = (List.range k).map Line.iteration ∧
    Line.finished ∉ outputLines (stepN k init).out ∧
    ∀ n, k ≤ n → Line.iteration n ∉ outputLines (stepN k init).out := by
  obtain ⟨-, -, hout⟩ := loopOut_eval k (Nat.le_of_lt hk)
  rw [hout]
  refine ⟨rfl, ?_, ?_⟩
  · simp
  · intro n hn
    simp only [List.mem_map, List.mem_range, Line.iteration.injEq, not_exists,
      not_and]
    intro m hm hmn
    omega

/-- Witness for C5 with termination after 5 emitted lines. -/
theorem C5_truncated_run_witness :
    (5 : Nat) < 20 ∧
    (outputLines (stepN 5 init).out = (List.range 5).map Line.iteration ∧
     Line.finished ∉ outputLines (stepN 5 init).out ∧
     ∀ n, 5 ≤ n → Line.iteration n ∉ outputLines (stepN 5 init).out) :=
  ⟨by decide, C5_truncated_run 5 (by decide)⟩

/-- C6: the script consumes no inputs: its event trace and exit status are
identical for any argument vector, environment and stdin contents, so any
two runs produce exactly the same output. -/
theorem C6_no_inputs (a1 a2 : List String) (e1 e2 : List (String × String))
    (i1 i2 : List String) :
    runWith a1 e1 i1 = runWith a2 e2 i2 := rfl

/-- Witness for C6 at two concrete, distinct process inputs. -/
theorem C6_no_inputs_witness :
    runWith ["--fast"] [("HOME", "/root")] ["hello"] = runWith [] [] [] :=
  C6_no_inputs ["--fast"] [] [("HOME", "/root")] [] ["hello"] []

/-- C7: the program always terminates: the loop runs exactly 20 iterations
(one sleep per iteration, counter reaching 20), after which the machine is
exited with status 0 and every further step leaves the state unchanged. -/
theorem C7_terminates :
    finalState.pc = PC.exited 0 ∧ finalState.counter = 20 ∧
    finalState.out.countP isSleep = 20 ∧
    ∀ n, 22 ≤ n → stepN n init = finalState := by
  refine ⟨by decide, by decide, by decide, ?_⟩
  intro n hn
  obtain ⟨m, rfl⟩ : ∃ m, n = 22 + m := ⟨n - 22, by omega⟩
  rw [stepN_add]
  exact stepN_fix finalState next_finalState m

/-- Witness for C7: running 30 steps from the start reaches the final
state. -/
theorem C7_terminates_witness :
    (22 : Nat) ≤ 30 ∧ stepN 30 init = finalState :=
  ⟨by decide, C7_terminates.2.2.2 30 (by decide)⟩

/-- C8: the machine has no error or stuck configuration: a state has no
successor exactly when the process has already exited, and the completed
run exits with status 0 (the event vocabulary has no failure event and
every step is total). -/
theorem C8_no_failure (s : State) :
    (step s = none ↔ ∃ c, s.pc = PC.exited c) ∧
    exitCodeOf finalState = some 0 := by
  constructor
  · obtain ⟨pc, c, o⟩ := s
    cases pc with
    | loop =>
      constructor
      · intro h
        by_cases hc : c < 20 <;> simp [step, hc] at h
      · intro h
        obtain ⟨code, hcode⟩ := h
        simp at hcode
    | final =>
      constructor
      · intro h
        simp [step] at h
      · intro h
        obtain ⟨code, hcode⟩ := h
        simp at hcode
    | exited code =>
      constructor
      · intro h
        exact ⟨code, rfl⟩
      · intro h
        rfl
  · decide

/-- Witness for C8 at the final state, which has indeed exited. -/
theorem C8_no_failure_witness :
    (step finalState = none ↔ ∃ c, finalState.pc = PC.exited c) ∧
    exitCodeOf finalState = some 0 :=
  C8_no_failure finalState

/-- C10: the per-tick sleep runs in all 20 iterations, the last included:
the run contains exactly 20 sleep calls requesting 20 seconds in total, and
one full 1-second sleep separates the `Iteration 19` print from the
`Counter finished.` print (the trace ends print 19, sleep, final print). -/
theorem C10_sleep_each_iteration :
    finalState.out.countP isSleep = 20 ∧
    (finalState.out.map sleepSeconds).sum = 20 ∧
    finalState.out.length = 41 ∧
    finalState.out.drop 38 =
      [Event.print (Line.iteration 19) true, Event.sleep 1,
       Event.print Line.finished false] := by
  refine ⟨by decide, by decide, by decide, by decide⟩

end SimpleCounter
